import Mathlib

/-
Verification of the authentication / capability-authorization core of the
sfsbook server (package `server`, file `user_state.go`) against its
natural-language specification.

The Go code is shallowly embedded:
  * the `int64` capability bitmask becomes `Nat` (every defined constant is a
    small non-negative value, so the two's-complement bit pattern coincides
    with the natural number);
  * the per-request `context.Context` becomes a partial map from string keys
    to stored values;
  * the gorilla/securecookie codec is an abstract decode function held in the
    handler state, exactly as the Go handler holds a `*securecookie.SecureCookie`;
  * the effects of one `ServeHTTP` call (error response written, delegate
    invoked, request forwarded to the delegate) are collected in a result
    record;
  * filesystem and randomness used by `makeCookieCryptoKey` become explicit
    arguments, with read failures distinguishing file-absent from
    file-unreadable so that the code path (which does not inspect the error)
    can be compared with the spec (which does distinguish them).
-/

namespace Server

/-- The Go capability mask `type CapabilityType int64`, embedded as `Nat`;
all defined capability constants occupy bits 0 through 10, so no value here
ever reaches the sign bit and `Nat` bitwise operations agree with the Go
`int64` ones. -/
abbrev CapabilityType := Nat

/-- Go: `CapabilityAnonymous CapabilityType = 0`. -/
def CapabilityAnonymous : CapabilityType := 0

/-- Go: `CapabilityViewPublicResourceEntry CapabilityType = 1 << iota` with
iota = 0 in its const block. -/
def CapabilityViewPublicResourceEntry : CapabilityType := 1 <<< 0

/-- Go: iota = 1. -/
def CapabilityViewOwnVolunteerComment : CapabilityType := 1 <<< 1

/-- Go: iota = 2. -/
def CapabilityViewOtherVolunteerComment : CapabilityType := 1 <<< 2

/-- Go: iota = 3. -/
def CapabilityEditOwnVolunteerComment : CapabilityType := 1 <<< 3

/-- Go: iota = 4. -/
def CapabilityEditOtherVolunteerComment : CapabilityType := 1 <<< 4

/-- Go: iota = 5. -/
def CapabilityEditResource : CapabilityType := 1 <<< 5

/-- Go: iota = 6. -/
def CapabilityViewUsers : CapabilityType := 1 <<< 6

/-- Go: iota = 7. -/
def CapabilityInviteNewVolunteer : CapabilityType := 1 <<< 7

/-- Go: iota = 8. -/
def CapabilityInviteNewAdmin : CapabilityType := 1 <<< 8

/-- Go: iota = 9. -/
def CapabilityEditUsers : CapabilityType := 1 <<< 9

/-- Go: iota = 10. -/
def CapabilityReauthenticate : CapabilityType := 1 <<< 10

/-- Go: `CapabilityAdministrator = CapabilityViewUsers | CapabilityInviteNewVolunteer
| CapabilityInviteNewAdmin | CapabilityEditUsers | CapabilityViewPublicResourceEntry`. -/
def CapabilityAdministrator : CapabilityType :=
  CapabilityViewUsers ||| CapabilityInviteNewVolunteer ||| CapabilityInviteNewAdmin |||
    CapabilityEditUsers ||| CapabilityViewPublicResourceEntry

/-- Go: `CapabilityVolunteer = CapabilityViewPublicResourceEntry |
CapabilityViewOwnVolunteerComment | CapabilityViewOtherVolunteerComment |
CapabilityEditOwnVolunteerComment | CapabilityEditResource |
CapabilityInviteNewVolunteer`. -/
def CapabilityVolunteer : CapabilityType :=
  CapabilityViewPublicResourceEntry ||| CapabilityViewOwnVolunteerComment |||
    CapabilityViewOtherVolunteerComment ||| CapabilityEditOwnVolunteerComment |||
    CapabilityEditResource ||| CapabilityInviteNewVolunteer

/-- The eleven single-bit capabilities defined in `user_state.go`, from
view-public-entry through reauthenticate-required. -/
def definedCapabilityBits : List CapabilityType :=
  [CapabilityViewPublicResourceEntry, CapabilityViewOwnVolunteerComment,
   CapabilityViewOtherVolunteerComment, CapabilityEditOwnVolunteerComment,
   CapabilityEditOtherVolunteerComment, CapabilityEditResource,
   CapabilityViewUsers, CapabilityInviteNewVolunteer, CapabilityInviteNewAdmin,
   CapabilityEditUsers, CapabilityReauthenticate]

/-- The Go struct `UserCookie`: identity record stored in the auth cookie.
`Uuid` ( `uuid.UUID`, a byte slice in pborman/uuid; the zero value is the
empty/nil slice ) is a list of bytes, `Timestamp` (`time.Time`) is embedded
as a number with 0 the zero value. -/
structure UserCookie where
  Uuid : List Nat
  Capability : CapabilityType
  Timestamp : Nat
  Displayname : String
deriving Repr, DecidableEq

/-- The Go zero value `new(UserCookie)`: nil uuid, capability 0, zero
timestamp, empty display name. -/
def zeroUserCookie : UserCookie :=
  { Uuid := [], Capability := 0, Timestamp := 0, Displayname := "" }

/-- Go: `func (u *UserCookie) IsAuthed() bool { return u.Capability != CapabilityAnonymous }`. -/
def UserCookie.IsAuthed (u : UserCookie) : Bool :=
  u.Capability != CapabilityAnonymous

/-- Go: `func (u *UserCookie) DisplayName() string { return u.Displayname }`. -/
def UserCookie.DisplayName (u : UserCookie) : String :=
  u.Displayname

/-- Go: `func (u *UserCookie) HasCapability(cap CapabilityType) bool
{ return u.Capability&cap != 0 }`. A pure function of its arguments, as is
every Lean function. -/
def UserCookie.HasCapability (u : UserCookie) (c : CapabilityType) : Bool :=
  u.Capability &&& c != 0

/-- Go: `func (u *UserCookie) HasCapabilityEditResource() bool`. -/
def UserCookie.HasCapabilityEditResource (u : UserCookie) : Bool :=
  u.HasCapability CapabilityEditResource

/-- Go: `func (u *UserCookie) HasCapabilityViewUsers() bool`. -/
def UserCookie.HasCapabilityViewUsers (u : UserCookie) : Bool :=
  u.HasCapability CapabilityViewUsers

/-- Go: `func (u *UserCookie) HasCapabilityIniviteUsers() bool`. -/
def UserCookie.HasCapabilityIniviteUsers (u : UserCookie) : Bool :=
  u.HasCapability (CapabilityInviteNewVolunteer ||| CapabilityInviteNewAdmin)

/-- Go: `const SessionCookieName = "session"`. -/
def SessionCookieName : String := "session"

/-- Go: `const UserCookieStateName = "usercookiestate"`. -/
def UserCookieStateName : String := "usercookiestate"

/-- A value stored in a `context.Context` slot. Go contexts hold values of
any type; the middleware stores a `*UserCookie`, and `GetCookie` performs an
unchecked type assertion, so the model distinguishes a stored `*UserCookie`
from a value of any other type. -/
inductive CtxValue where
  | userCookie (u : UserCookie)
  | other (tag : String)
deriving Repr, DecidableEq

/-- A Go `context.Context`, modelled as the map from keys to stored values
that `ctx.Value` realizes. -/
def Context : Type := String → Option CtxValue

/-- Go `context.WithValue(ctx, k, v)`: the derived context answers `v` for
key `k` and defers to the parent otherwise. -/
def Context.WithValue (ctx : Context) (k : String) (v : CtxValue) : Context :=
  fun key => if key = k then some v else ctx key

/-- An incoming `*http.Request`, restricted to the two features the
middleware uses: its cookies (`req.Cookie(name)` yields the value, or an
error when the cookie is absent, modelled as `none`) and its context. -/
structure Request where
  cookies : String → Option String
  ctx : Context

/-- Go `req.WithContext(ctx)`: the same request with a replaced context. -/
def Request.WithContext (req : Request) (c : Context) : Request :=
  { req with ctx := c }

/-- Go: `func GetCookie(req *http.Request) *UserCookie { return
req.Context().Value(UserCookieStateName).(*UserCookie) }`. The unchecked
type assertion panics when the slot is empty or holds a value of another
type; the panic is modelled as `none`, a successful assertion as `some`. -/
def GetCookie (req : Request) : Option UserCookie :=
  match req.ctx UserCookieStateName with
  | some (CtxValue.userCookie u) => some u
  | _ => none

/-- The Go struct `cookieHandler`. The `*securecookie.SecureCookie` codec is
abstracted to its `Decode` behavior: given the cookie name and the cookie
value, it either produces the decoded `UserCookie` or fails. The delegate
handler itself is left abstract; `ServeResult` below records whether and
with which request it is invoked. -/
structure cookieHandler where
  decode : String → String → Except String UserCookie
  revokelist : List (List Nat)

/-- Observable effects of one `cookieHandler.ServeHTTP` call:
`errorResponse` is the diagnostic body passed to `respondWithError` when one
is written ( `respondWithError` lives outside `user_state.go`; modelled from
the spec: it surfaces an HTTP error response with a diagnostic body to the
client ); `delegateInvoked` records whether `cf.delegate.ServeHTTP` runs;
`delegateRequest` is the request the delegate receives. -/
structure ServeResult where
  errorResponse : Option String
  delegateInvoked : Bool
  delegateRequest : Request

/-- Go `func (cf *cookieHandler) ServeHTTP(w http.ResponseWriter, req
*http.Request)`, step by step: look up the session cookie; allocate the
zero-value `usercookie`; when the cookie is present, try to decode into it —
on failure log, write an error response, and fall through with `usercookie`
still the zero value (securecookie's `Decode` does not populate the
destination on failure); when the cookie is absent, set the capability to
`CapabilityAnonymous`; in every case invoke the delegate on the request
whose context binds `UserCookieStateName` to `usercookie`. -/
def cookieHandler.ServeHTTP (cf : cookieHandler) (req : Request) : ServeResult :=
  match req.cookies SessionCookieName with
  | some value =>
    match cf.decode SessionCookieName value with
    | Except.error e =>
      { errorResponse := some ("Malformed session cookie " ++ e),
        delegateInvoked := true,
        delegateRequest := req.WithContext
          (req.ctx.WithValue UserCookieStateName (CtxValue.userCookie zeroUserCookie)) }
    | Except.ok u =>
      { errorResponse := none,
        delegateInvoked := true,
        delegateRequest := req.WithContext
          (req.ctx.WithValue UserCookieStateName (CtxValue.userCookie u)) }
  | none =>
    { errorResponse := none,
      delegateInvoked := true,
      delegateRequest := req.WithContext
        (req.ctx.WithValue UserCookieStateName
          (CtxValue.userCookie { zeroUserCookie with Capability := CapabilityAnonymous })) }

/-- Outcome of `ioutil.ReadFile`: the bytes on success, or an error. The Go
code never inspects which error it got; the model nevertheless distinguishes
a missing file from an existing-but-unreadable one so the code's behavior
can be compared with the spec, which distinguishes them. -/
inductive ReadResult where
  | ok (bytes : List Nat)
  | errNotExist
  | errPermission (msg : String)
deriving Repr, DecidableEq

/-- The filesystem operations `makeCookieCryptoKey` performs, as one record
of abstract results: `ioutil.ReadFile`, `os.Create`, and `File.Write`
(which reports the byte count written, or an error). -/
structure FileSystem where
  readFile : String → ReadResult
  create : String → Except String Unit
  write : String → List Nat → Except String Nat

/-- Modelled from the spec: `securecookie.GenerateRandomKey(length)` (from
the external gorilla/securecookie dependency, not in this repository)
returns `length` cryptographically random bytes, or nil when the system
randomness source fails. The randomness source is an explicit argument:
`none` models its failure. -/
def GenerateRandomKey (length : Nat) (rng : Option (Nat → Nat)) : Option (List Nat) :=
  rng.map fun r => (List.range length).map r

/-- Go `filepath.Join(statepath, cookiename)` for the simple two-component
case used here. -/
def filepathJoin (a b : String) : String := a ++ "/" ++ b

/-- Go `func makeCookieCryptoKey(statepath, cookiename string) ([]byte,
error)`, line by line: read the key file; on any read error generate a
fresh 32-byte random key (error if the generator fails), create the file
(error with the `Can't create` message on failure), write the key (error
with the `Can't write` message when the write errors or writes a short
count), and return the key. -/
def makeCookieCryptoKey (fs : FileSystem) (rng : Option (Nat → Nat))
    (statepath cookiename : String) : Except String (List Nat) :=
  let path := filepathJoin statepath cookiename
  match fs.readFile path with
  | ReadResult.ok key => Except.ok key
  | _ =>
    match GenerateRandomKey 32 rng with
    | none => Except.error ("No cookie for " ++ cookiename ++ " and can't make one")
    | some key =>
      match fs.create path with
      | Except.error e =>
        Except.error ("Can't create a " ++ path ++ " to hold new cookie: " ++ e)
      | Except.ok _ =>
        match fs.write path key with
        | Except.error e =>
          Except.error ("Can't write new cookie " ++ path ++
            ".  len is 0 instead of " ++ toString key.length ++ " or error: " ++ e)
        | Except.ok n =>
          if n ≠ key.length then
            Except.error ("Can't write new cookie " ++ path ++
              ".  len is " ++ toString n ++ " instead of " ++ toString key.length)
          else Except.ok key

/-- Go `func makeCookieTooling(statepath string) (*securecookie.SecureCookie,
error)`: provision the hash key then the block key, propagating the first
error; the resulting codec is abstracted to the pair of keys it is built
from. Each Go call of `GenerateRandomKey` draws fresh randomness, so the
two calls receive separate randomness arguments. -/
def makeCookieTooling (fs : FileSystem) (rng1 rng2 : Option (Nat → Nat))
    (statepath : String) : Except String (List Nat × List Nat) :=
  match makeCookieCryptoKey fs rng1 statepath "hashkey.dat" with
  | Except.error e => Except.error e
  | Except.ok hashkey =>
    match makeCookieCryptoKey fs rng2 statepath "blockkey.dat" with
    | Except.error e => Except.error e
    | Except.ok blockkey => Except.ok (hashkey, blockkey)

/-! Concrete fixtures used by witnesses and counterexamples. -/

/-- A codec whose decode always fails, standing in for a securecookie codec
presented with an unauthentic or corrupted token. -/
def failingCodec : String → String → Except String UserCookie :=
  fun _ _ => Except.error "securecookie: the value is not valid"

/-- A handler built over `failingCodec`, with the empty revocation list the
Go constructor `makeCookieHandler` starts from. -/
def failingHandler : cookieHandler :=
  { decode := failingCodec, revokelist := [] }

/-- A decoded identity record that violates the id/capability invariant: an
empty uuid carried together with the Volunteer capability mask. The token
round-trip property means some token decodes to it, since nothing stops a
token issuer from encoding it. -/
def invariantBreakingRecord : UserCookie :=
  { Uuid := [], Capability := CapabilityVolunteer, Timestamp := 0, Displayname := "x" }

/-- A codec that successfully decodes every value to
`invariantBreakingRecord`, standing in for a genuine codec presented with
that record's valid encoded token. -/
def invariantBreakingHandler : cookieHandler :=
  { decode := fun _ _ => Except.ok invariantBreakingRecord, revokelist := [] }

/-- A request carrying a session cookie value that will fail to decode. -/
def requestWithBadCookie : Request :=
  { cookies := fun name => if name = SessionCookieName then some "garbage" else none,
    ctx := fun _ => none }

/-- A request carrying no cookies at all, with an empty context. -/
def requestNoCookie : Request :=
  { cookies := fun _ => none, ctx := fun _ => none }

/-- A filesystem on which the key file exists but reading it fails with a
permission error, while creating and rewriting it succeed. -/
def fsUnreadable : FileSystem :=
  { readFile := fun _ => ReadResult.errPermission "permission denied",
    create := fun _ => Except.ok (),
    write := fun _ key => Except.ok key.length }

/-- A filesystem on which the key file is absent and creation and writing
succeed. -/
def fsAbsent : FileSystem :=
  { readFile := fun _ => ReadResult.errNotExist,
    create := fun _ => Except.ok (),
    write := fun _ key => Except.ok key.length }

/-- A deterministic stand-in randomness source. -/
def rngConst : Option (Nat → Nat) := some fun _ => 7

/-- An administrator identity record. -/
def adminUser : UserCookie :=
  { Uuid := [0, 1, 2, 3], Capability := CapabilityAdministrator, Timestamp := 1, Displayname := "a" }

/-- A volunteer identity record. -/
def volunteerUser : UserCookie :=
  { Uuid := [4, 5, 6, 7], Capability := CapabilityVolunteer, Timestamp := 1, Displayname := "v" }

/-! ## Theorems settling the claims -/

/-- C3: for every identity record (hence every capability mask it carries)
and every capability bit, `HasCapability` returns true exactly when the
bitwise AND of the mask and the bit is non-zero. The embedding is a total
Lean function, so the operation is pure by construction. -/
theorem hasCapability_iff_and_ne_zero (u : UserCookie) (b : CapabilityType) :
    u.HasCapability b = true ↔ u.Capability &&& b ≠ 0 := by
  simp [UserCookie.HasCapability]

/-- C4: an identity record whose capability mask is `CapabilityAnonymous`
has none of the eleven defined capability bits, view-public-entry through
reauthenticate-required. -/
theorem anonymous_has_no_capability (u : UserCookie)
    (hu : u.Capability = CapabilityAnonymous) :
    ∀ b ∈ definedCapabilityBits, u.HasCapability b = false := by
  intro b _
  simp [UserCookie.HasCapability, hu, CapabilityAnonymous]

/-- Witness for C4 at the zero-value record and the view-users bit. -/
theorem anonymous_has_no_capability_witness :
    zeroUserCookie.HasCapability CapabilityViewUsers = false :=
  anonymous_has_no_capability zeroUserCookie rfl CapabilityViewUsers (by decide)

/-- C5: the administrator mask grants view-users but not edit-resource, and
it is exactly the union of view-users, invite-volunteer, invite-admin,
edit-users, and view-public-entry. -/
theorem administrator_capabilities :
    adminUser.HasCapability CapabilityViewUsers = true ∧
    adminUser.HasCapability CapabilityEditResource = false ∧
    CapabilityAdministrator =
      (CapabilityViewUsers ||| CapabilityInviteNewVolunteer ||| CapabilityInviteNewAdmin |||
        CapabilityEditUsers ||| CapabilityViewPublicResourceEntry) := by
  decide

/-- C6: the volunteer mask grants edit-resource but not edit-users, and it
is exactly the union of view-public-entry, view-own-comment,
view-other-comment, edit-own-comment, edit-resource, and invite-volunteer. -/
theorem volunteer_capabilities :
    volunteerUser.HasCapability CapabilityEditResource = true ∧
    volunteerUser.HasCapability CapabilityEditUsers = false ∧
    CapabilityVolunteer =
      (CapabilityViewPublicResourceEntry ||| CapabilityViewOwnVolunteerComment |||
        CapabilityViewOtherVolunteerComment ||| CapabilityEditOwnVolunteerComment |||
        CapabilityEditResource ||| CapabilityInviteNewVolunteer) := by
  decide

/-- C2: on a request without a session cookie, `ServeHTTP` writes no error
response, stores the identity record with empty uuid and anonymous
capability in the forwarded request's context under `UserCookieStateName`,
and invokes the delegate, which can retrieve that record via `GetCookie`. -/
theorem serveHTTP_no_cookie_anonymous (cf : cookieHandler) (req : Request)
    (h : req.cookies SessionCookieName = none) :
    (cf.ServeHTTP req).delegateInvoked = true ∧
    (cf.ServeHTTP req).errorResponse = none ∧
    (cf.ServeHTTP req).delegateRequest.ctx UserCookieStateName =
      some (CtxValue.userCookie
        { Uuid := [], Capability := CapabilityAnonymous, Timestamp := 0, Displayname := "" }) ∧
    GetCookie (cf.ServeHTTP req).delegateRequest =
      some { Uuid := [], Capability := CapabilityAnonymous, Timestamp := 0, Displayname := "" } := by
  simp [cookieHandler.ServeHTTP, h, GetCookie, Request.WithContext, Context.WithValue,
    zeroUserCookie, CapabilityAnonymous]

/-- Witness for C2 at a concrete cookieless request. -/
theorem serveHTTP_no_cookie_anonymous_witness :
    (failingHandler.ServeHTTP requestNoCookie).delegateInvoked = true ∧
    (failingHandler.ServeHTTP requestNoCookie).errorResponse = none ∧
    (failingHandler.ServeHTTP requestNoCookie).delegateRequest.ctx UserCookieStateName =
      some (CtxValue.userCookie
        { Uuid := [], Capability := CapabilityAnonymous, Timestamp := 0, Displayname := "" }) ∧
    GetCookie (failingHandler.ServeHTTP requestNoCookie).delegateRequest =
      some { Uuid := [], Capability := CapabilityAnonymous, Timestamp := 0, Displayname := "" } :=
  serveHTTP_no_cookie_anonymous failingHandler requestNoCookie rfl

/-- C8: `GetCookie` on a request whose context has nothing stored under
`UserCookieStateName` — the middleware has not run — yields the panic
outcome (`none`), never a `UserCookie` value. -/
theorem getCookie_before_middleware_panics (req : Request)
    (h : req.ctx UserCookieStateName = none) :
    GetCookie req = none := by
  simp [GetCookie, h]

/-- Witness for C8 at a concrete request with an empty context. -/
theorem getCookie_before_middleware_panics_witness :
    GetCookie requestNoCookie = none :=
  getCookie_before_middleware_panics requestNoCookie rfl

/-- C10: on a request whose session cookie fails to decode, `ServeHTTP`
writes the malformed-cookie error response and nevertheless invokes the
delegate, whose request context carries the zero-value `UserCookie` —
anonymous capability mask, empty uuid, zero timestamp, empty display name —
so the delegate observes the request as unauthenticated. -/
theorem serveHTTP_bad_cookie_forwards_zero (cf : cookieHandler) (req : Request)
    (v e : String)
    (hv : req.cookies SessionCookieName = some v)
    (he : cf.decode SessionCookieName v = Except.error e) :
    (cf.ServeHTTP req).errorResponse = some ("Malformed session cookie " ++ e) ∧
    (cf.ServeHTTP req).delegateInvoked = true ∧
    GetCookie (cf.ServeHTTP req).delegateRequest = some zeroUserCookie ∧
    zeroUserCookie.Capability = CapabilityAnonymous ∧
    zeroUserCookie.Uuid = [] ∧
    zeroUserCookie.Timestamp = 0 ∧
    zeroUserCookie.Displayname = "" ∧
    zeroUserCookie.IsAuthed = false := by
  simp [cookieHandler.ServeHTTP, hv, he, GetCookie, Request.WithContext, Context.WithValue,
    zeroUserCookie, CapabilityAnonymous, UserCookie.IsAuthed]

/-- Witness for C10 at a concrete request and an always-failing codec. -/
theorem serveHTTP_bad_cookie_forwards_zero_witness :
    (failingHandler.ServeHTTP requestWithBadCookie).errorResponse =
      some ("Malformed session cookie " ++ "securecookie: the value is not valid") ∧
    (failingHandler.ServeHTTP requestWithBadCookie).delegateInvoked = true ∧
    GetCookie (failingHandler.ServeHTTP requestWithBadCookie).delegateRequest =
      some zeroUserCookie ∧
    zeroUserCookie.Capability = CapabilityAnonymous ∧
    zeroUserCookie.Uuid = [] ∧
    zeroUserCookie.Timestamp = 0 ∧
    zeroUserCookie.Displayname = "" ∧
    zeroUserCookie.IsAuthed = false :=
  serveHTTP_bad_cookie_forwards_zero failingHandler requestWithBadCookie
    "garbage" "securecookie: the value is not valid" (by simp [requestWithBadCookie]) rfl

/-- C1 (code behavior at the failing input): on a request whose session
cookie fails to decode, the code writes the error response and still
invokes the delegate with the zero-value record attached, contrary to the
specified reject-without-forwarding policy. -/
theorem serveHTTP_decode_failure_still_forwards :
    (failingHandler.ServeHTTP requestWithBadCookie).errorResponse =
      some "Malformed session cookie securecookie: the value is not valid" ∧
    (failingHandler.ServeHTTP requestWithBadCookie).delegateInvoked = true ∧
    GetCookie (failingHandler.ServeHTTP requestWithBadCookie).delegateRequest =
      some zeroUserCookie := by
  refine ⟨?_, rfl, ?_⟩ <;>
    simp [cookieHandler.ServeHTTP, requestWithBadCookie, failingHandler, failingCodec,
      GetCookie, Request.WithContext, Context.WithValue, SessionCookieName]

/-- C9 counterexample: the middleware attaches whatever record the codec
decodes, unvalidated; with a token that decodes to a record carrying an
empty uuid together with the Volunteer capability mask, the attached record
violates the claimed invariant that the id is empty iff the capabilities
are anonymous. -/
theorem serveHTTP_attaches_invariant_violating_record :
    GetCookie (invariantBreakingHandler.ServeHTTP requestWithBadCookie).delegateRequest =
      some invariantBreakingRecord ∧
    invariantBreakingRecord.Uuid = [] ∧
    invariantBreakingRecord.Capability ≠ CapabilityAnonymous := by
  refine ⟨?_, rfl, by decide⟩
  simp [cookieHandler.ServeHTTP, requestWithBadCookie, invariantBreakingHandler,
    GetCookie, Request.WithContext, Context.WithValue, SessionCookieName]

/-- C9 amended: in the no-token and failed-decode outcomes the attached
record (empty uuid, anonymous capability) satisfies the invariant
unconditionally; in the successful-decode outcome the middleware attaches
the decoded record as-is, so the invariant holds for every attached record
provided every successfully decoded record satisfies it. -/
theorem serveHTTP_invariant_conditional (cf : cookieHandler) (req : Request)
    (hdec : ∀ v u, req.cookies SessionCookieName = some v →
      cf.decode SessionCookieName v = Except.ok u →
      (u.Uuid = [] ↔ u.Capability = CapabilityAnonymous)) :
    ∀ u, GetCookie (cf.ServeHTTP req).delegateRequest = some u →
      (u.Uuid = [] ↔ u.Capability = CapabilityAnonymous) := by
  intro u hu
  cases hcv : req.cookies SessionCookieName with
  | none =>
    simp only [cookieHandler.ServeHTTP, hcv] at hu
    simp [GetCookie, Request.WithContext, Context.WithValue, zeroUserCookie] at hu
    simp [← hu, CapabilityAnonymous]
  | some v =>
    cases hd : cf.decode SessionCookieName v with
    | error e =>
      simp only [cookieHandler.ServeHTTP, hcv, hd] at hu
      simp [GetCookie, Request.WithContext, Context.WithValue, zeroUserCookie] at hu
      simp [← hu, CapabilityAnonymous]
    | ok w =>
      simp only [cookieHandler.ServeHTTP, hcv, hd] at hu
      simp [GetCookie, Request.WithContext, Context.WithValue] at hu
      exact hu ▸ hdec v w hcv hd

/-- Witness for the amended C9 at a cookieless request: the attached
anonymous record satisfies the invariant. -/
theorem serveHTTP_invariant_conditional_witness :
    ({ Uuid := [], Capability := CapabilityAnonymous, Timestamp := 0,
       Displayname := "" } : UserCookie).Uuid = [] ↔
    ({ Uuid := [], Capability := CapabilityAnonymous, Timestamp := 0,
       Displayname := "" } : UserCookie).Capability = CapabilityAnonymous :=
  serveHTTP_invariant_conditional failingHandler requestNoCookie
    (fun _ _ hv _ => nomatch hv)
    { Uuid := [], Capability := CapabilityAnonymous, Timestamp := 0, Displayname := "" }
    (by simp [cookieHandler.ServeHTTP, requestNoCookie, GetCookie, Request.WithContext,
      Context.WithValue, zeroUserCookie, CapabilityAnonymous])

/-- C7 counterexample: on a filesystem where the key file exists but
reading it fails with a permission error, `makeCookieCryptoKey` does not
return an error — it proceeds with a freshly generated key, because the
code treats every read failure alike. -/
theorem makeCookieCryptoKey_unreadable_not_fatal :
    fsUnreadable.readFile (filepathJoin "statedir" "hashkey.dat") =
      ReadResult.errPermission "permission denied" ∧
    makeCookieCryptoKey fsUnreadable rngConst "statedir" "hashkey.dat" =
      Except.ok ((List.range 32).map fun _ => 7) :=
  ⟨rfl, rfl⟩

/-- C7 amended: whenever reading the key file fails — absent or unreadable
alike — a fresh 32-byte key is generated from the randomness source and
persisted, and it is returned when creation and the full write succeed. -/
theorem makeCookieCryptoKey_read_failure_generates (fs : FileSystem)
    (r : Nat → Nat) (statepath cookiename : String)
    (hread : ∀ b, fs.readFile (filepathJoin statepath cookiename) ≠ ReadResult.ok b)
    (hcreate : fs.create (filepathJoin statepath cookiename) = Except.ok ())
    (hwrite : fs.write (filepathJoin statepath cookiename) ((List.range 32).map r) =
      Except.ok 32) :
    makeCookieCryptoKey fs (some r) statepath cookiename =
      Except.ok ((List.range 32).map r) ∧
    ((List.range 32).map r).length = 32 := by
  unfold makeCookieCryptoKey
  cases hr : fs.readFile (filepathJoin statepath cookiename) with
  | ok b => exact absurd hr (hread b)
  | errNotExist =>
    simp [GenerateRandomKey, hcreate, hwrite]
  | errPermission m =>
    simp [GenerateRandomKey, hcreate, hwrite]

/-- Witness for the amended C7 on a filesystem with the key file absent. -/
theorem makeCookieCryptoKey_read_failure_generates_witness :
    makeCookieCryptoKey fsAbsent (some fun _ => 7) "statedir" "blockkey.dat" =
      Except.ok ((List.range 32).map fun _ => 7) ∧
    ((List.range 32).map fun _ => 7).length = 32 :=
  makeCookieCryptoKey_read_failure_generates fsAbsent (fun _ => 7) "statedir" "blockkey.dat"
    (fun _ h => nomatch h) rfl rfl

end Server
